import Mathlib

/-!
Verification of the BizWiz 2.5 city-configuration generator and load
orchestrator against its natural-language specification.

The definitions below are shallow embeddings of the Python source:

* city_config.py — configuration model, generator, and YAML-backed store
  (EnhancedCityConfigManager);
* dynamic_dashboard_fixed.py — the load orchestrator
  (trigger_city_loading, load_city_data_background_safe,
  create_synthetic_city_data).

Python floats are modelled as rationals, Python ints as Int, Python
strings as Lean strings over their character lists.  Where the
tuple-versus-list distinction of Python values is observable (YAML
round-tripping of the demographic range fields), it is modelled
explicitly by the RangeVal type.
-/

namespace BizWiz

/-- ASCII lower-casing of one character, the behaviour of Python
str.lower on the ASCII city and state names handled by the repo. -/
def pyLowerChar (c : Char) : Char :=
  if 'A' ≤ c ∧ c ≤ 'Z' then Char.ofNat (c.toNat + 32) else c

/-- Replacement of a single character, the behaviour of Python
str.replace with one-character pattern and one-character replacement. -/
def replChar (a b : Char) (c : Char) : Char :=
  if c = a then b else c

/-- Lower-casing of a whole string (Python str.lower). -/
def pyLower (s : String) : String :=
  ⟨s.toList.map pyLowerChar⟩

/-- Embedding of the slug pipeline applied to the city name in
city_config.py line 256: lower(), then replace(' ', underscore), then
replace('-', underscore), then replace('.', ''). -/
def slugChars (l : List Char) : List Char :=
  ((((l.map pyLowerChar).map (replChar ' ' '_')).map (replChar '-' '_')).filter
    (fun c => c != '.'))

/-- Embedding of the city_id construction of
_create_city_config_from_data (city_config.py line 256). -/
def city_id (city_name state_code : String) : String :=
  String.mk (slugChars city_name.toList) ++ "_" ++ pyLower state_code

/-- Literal reading of the claim text: the lowercased city name with
spaces, hyphens and periods REMOVED (deleted), joined with an underscore
to the lowercased state code. -/
def cityIdClaimLiteral (city_name state_code : String) : String :=
  String.mk ((city_name.toList.map pyLowerChar).filter
    (fun c => c != ' ' && c != '-' && c != '.')) ++ "_" ++ pyLower state_code

/-- Per-character form of the amended slug rule: lower-case, map space
and hyphen to underscore, leave everything else alone. -/
def slugCharSpec (c : Char) : Char :=
  if pyLowerChar c = ' ' then '_'
  else if pyLowerChar c = '-' then '_'
  else pyLowerChar c

/-- Amended spec wording of the slug: lowercased city name with spaces
and hyphens replaced by underscores and periods removed, joined with an
underscore to the lowercased state code. -/
def cityIdAmendedSpec (city_name state_code : String) : String :=
  String.mk ((city_name.toList.map slugCharSpec).filter (fun c => c != '.')) ++
    "_" ++ pyLower state_code

theorem slugChars_eq_spec (l : List Char) :
    slugChars l = (l.map slugCharSpec).filter (fun c => c != '.') := by
  have hfun : ∀ c, replChar '-' '_' (replChar ' ' '_' (pyLowerChar c)) = slugCharSpec c := by
    intro c
    unfold replChar slugCharSpec
    by_cases h1 : pyLowerChar c = ' '
    · rw [h1]; decide
    · by_cases h2 : pyLowerChar c = '-'
      · rw [h2]; decide
      · simp only [if_neg h1, if_neg h2]
  simp only [slugChars, List.map_map]
  congr 1
  exact List.map_congr_left (fun c _ => hfun c)

/-- Embedding of _calculate_bounds_size (city_config.py lines 297-310). -/
def bounds_size (population : Int) : Rat :=
  if population > 2000000 then 0.3
  else if population > 1000000 then 0.2
  else if population > 500000 then 0.15
  else if population > 200000 then 0.1
  else if population > 100000 then 0.08
  else 0.05

/-- Tier table exactly as the spec states it (section 4.1 of the spec). -/
def boundsSizeSpecTable (p : Int) : Rat :=
  if p > 2000000 then 0.30
  else if p > 1000000 then 0.20
  else if p > 500000 then 0.15
  else if p > 200000 then 0.10
  else if p > 100000 then 0.08
  else 0.05

/-- C4, counterexample: bounds_size is NOT a non-increasing function of
population.  At p = 100 it yields 0.05 while at p = 3,000,000 it yields
0.3, so the value increases as the population grows. -/
theorem bounds_size_not_nonincreasing :
    (100 : Int) ≤ 3000000 ∧ ¬ bounds_size 3000000 ≤ bounds_size 100 := by
  refine ⟨by norm_num, ?_⟩
  norm_num [bounds_size]

/-- C4, amended: for every population the bounds half-width equals the
tier table of the spec, it is a non-DEcreasing function of population, and at
exact thresholds the tie-break favours the lower tier tested high to
low: p = 2,000,000 and p = 1,000,001 both yield 0.20. -/
theorem bounds_size_table_and_monotone :
    (∀ p : Int, bounds_size p = boundsSizeSpecTable p) ∧
    (∀ p q : Int, p ≤ q → bounds_size p ≤ bounds_size q) ∧
    bounds_size 2000000 = 0.20 ∧ bounds_size 1000001 = 0.20 := by
  refine ⟨?_, ?_, by norm_num [bounds_size], by norm_num [bounds_size]⟩
  · intro p
    unfold bounds_size boundsSizeSpecTable
    split_ifs <;> norm_num
  · intro p q hpq
    unfold bounds_size
    split_ifs <;> try norm_num
    all_goals omega

/-- C4, witness for the monotonicity hypothesis of
bounds_size_table_and_monotone, at p = 100 and q = 200. -/
theorem bounds_size_monotone_witness :
    (100 : Int) ≤ 200 ∧ bounds_size 100 ≤ bounds_size 200 :=
  ⟨by decide, bounds_size_table_and_monotone.2.1 100 200 (by decide)⟩

/-- C5, counterexample: the removal rule stated by the claim contradicts
the code (and the example given by the claim itself).  The code maps "New York"/"NY" to
new_york_ny, with the space replaced by an underscore, while removing
spaces as the claim prose states would give newyork_ny; likewise the
hyphen of "Winston-Salem" is replaced by an underscore, not dropped. -/
theorem city_id_removal_rule_false :
    city_id "New York" "NY" = "new_york_ny" ∧
    cityIdClaimLiteral "New York" "NY" = "newyork_ny" ∧
    city_id "New York" "NY" ≠ cityIdClaimLiteral "New York" "NY" ∧
    city_id "Winston-Salem" "NC" = "winston_salem_nc" ∧
    cityIdClaimLiteral "Winston-Salem" "NC" = "winstonsalem_nc" := by
  refine ⟨by decide, by decide, by decide, by decide, by decide⟩

/-- C5, amended: the generated city_id is the lowercased city name with
spaces and hyphens replaced by underscores and periods removed, joined
with an underscore to the lowercased state code; in particular
city_id("New York", "NY") is new_york_ny and city_id("St. Louis", "MO")
is st_louis_mo. -/
theorem city_id_amended_rule :
    (∀ name st : String, city_id name st = cityIdAmendedSpec name st) ∧
    city_id "New York" "NY" = "new_york_ny" ∧
    city_id "St. Louis" "MO" = "st_louis_mo" := by
  refine ⟨?_, by decide, by decide⟩
  intro name st
  simp only [city_id, cityIdAmendedSpec, slugChars_eq_spec]

/-- Python value for the tuple-typed range fields.  The tuple-versus-list
distinction is observable through YAML persistence, so it is modelled
explicitly: tup is a Python 2-tuple, lst a Python list. -/
inductive RangeVal where
  | tup (a b : Rat)
  | lst (xs : List Rat)
deriving DecidableEq

/-- Embedding of the CityBounds dataclass (city_config.py lines 14-23). -/
structure CityBounds where
  min_lat : Rat
  max_lat : Rat
  min_lon : Rat
  max_lon : Rat
  center_lat : Rat
  center_lon : Rat
  grid_spacing : Rat
deriving DecidableEq

/-- Embedding of the CityDemographics dataclass (lines 32-38). -/
structure CityDemographics where
  typical_population_range : RangeVal
  typical_income_range : RangeVal
  typical_age_range : RangeVal
  population_density_factor : Rat
deriving DecidableEq

/-- Embedding of the CityMarketData dataclass (lines 40-48). -/
structure CityMarketData where
  state_code : String
  county_name : String
  city_name_variations : List String
  rental_api_city_name : String
  major_universities : List String
  major_employers : List String
deriving DecidableEq

/-- Embedding of the CityCompetitorData dataclass (lines 50-56). -/
structure CityCompetitorData where
  primary_competitor : String
  competitor_search_terms : List String
  market_saturation_factor : Rat
  fast_casual_preference_score : Rat
deriving DecidableEq

/-- Embedding of the CityConfiguration dataclass (lines 58-66). -/
structure CityConfiguration where
  city_id : String
  display_name : String
  bounds : CityBounds
  demographics : CityDemographics
  market_data : CityMarketData
  competitor_data : CityCompetitorData
deriving DecidableEq

/-- Raw city record handed to the generator, the pandas Series built
from CITY, STATE_CODE, POPULATION, LATITUDE, LONGITUDE, COUNTY. -/
structure RawCityRecord where
  city : String
  state_code : String
  population : Int
  latitude : Rat
  longitude : Rat
  county : Option String
deriving DecidableEq

/-- Embedding of _create_demographics_for_population (lines 312-341).
The range literals are Python tuples, hence RangeVal.tup. -/
def _create_demographics_for_population (population : Int) : CityDemographics :=
  if population > 1000000 then
    { typical_population_range := .tup 10000 50000,
      typical_income_range := .tup 50000 120000,
      typical_age_range := .tup 25 45,
      population_density_factor := 1.5 }
  else if population > 500000 then
    { typical_population_range := .tup 5000 25000,
      typical_income_range := .tup 45000 100000,
      typical_age_range := .tup 25 50,
      population_density_factor := 1.2 }
  else if population > 200000 then
    { typical_population_range := .tup 3000 15000,
      typical_income_range := .tup 40000 80000,
      typical_age_range := .tup 25 55,
      population_density_factor := 1.0 }
  else
    { typical_population_range := .tup 2000 10000,
      typical_income_range := .tup 35000 70000,
      typical_age_range := .tup 25 60,
      population_density_factor := 0.8 }

/-- Base competitor list of _create_competitor_data_for_population
(line 345). -/
def base_competitors : List String :=
  ["mcdonalds", "kfc", "taco-bell", "burger-king", "subway", "wendys", "popeyes"]

/-- Embedding of _create_competitor_data_for_population (lines 343-375). -/
def _create_competitor_data_for_population (population : Int) : CityCompetitorData :=
  if population > 1000000 then
    { primary_competitor := "chick-fil-a",
      competitor_search_terms :=
        base_competitors ++ ["chipotle", "panera", "five-guys", "shake-shack"],
      market_saturation_factor := 0.95,
      fast_casual_preference_score := 0.9 }
  else if population > 500000 then
    { primary_competitor := "chick-fil-a",
      competitor_search_terms := base_competitors ++ ["chipotle", "panera"],
      market_saturation_factor := 0.85,
      fast_casual_preference_score := 0.85 }
  else if population > 200000 then
    { primary_competitor := "chick-fil-a",
      competitor_search_terms := base_competitors,
      market_saturation_factor := 0.75,
      fast_casual_preference_score := 0.8 }
  else
    { primary_competitor := "chick-fil-a",
      competitor_search_terms := base_competitors.take 5,
      market_saturation_factor := 0.6,
      fast_casual_preference_score := 0.75 }

/-- Embedding of _get_state_market_data (lines 377-401): the literal
per-state table of (universities, major employers). -/
def state_market_data : List (String × (List String × List String)) :=
  [("CA", (["UCLA", "USC", "Stanford", "UC Berkeley"],
           ["Apple", "Google", "Disney", "Tesla"])),
   ("TX", (["UT Austin", "Texas A&M", "Rice University"],
           ["ExxonMobil", "AT&T", "Dell", "Southwest Airlines"])),
   ("NY", (["Columbia", "NYU", "Cornell"],
           ["JPMorgan Chase", "Citigroup", "IBM", "Verizon"])),
   ("FL", (["University of Florida", "Florida State", "Miami"],
           ["Disney", "Publix", "FedEx", "NextEra Energy"])),
   ("ND", (["University of North Dakota", "North Dakota State University"],
           ["Sanford Health", "Altru Health System", "US Air Force"]))]

/-- Embedding of the body of _create_city_config_from_data (lines
246-295).  The body performs no validation and no conditional raising:
it derives every field unconditionally from the record. -/
def createCityConfig (r : RawCityRecord) : CityConfiguration :=
  let county := r.county.getD (r.city ++ " County")
  let bsize := bounds_size r.population
  { city_id := city_id r.city r.state_code,
    display_name := r.city ++ ", " ++ r.state_code,
    bounds :=
      { min_lat := r.latitude - bsize,
        max_lat := r.latitude + bsize,
        min_lon := r.longitude - bsize,
        max_lon := r.longitude + bsize,
        center_lat := r.latitude,
        center_lon := r.longitude,
        grid_spacing := if r.population > 500000 then 0.005 else 0.008 },
    demographics := _create_demographics_for_population r.population,
    market_data :=
      { state_code := r.state_code,
        county_name := county,
        city_name_variations :=
          [r.city, r.city ++ " " ++ r.state_code, r.city ++ ", " ++ r.state_code],
        rental_api_city_name := r.city,
        major_universities := ((state_market_data.lookup r.state_code).getD ([], [])).1,
        major_employers := ((state_market_data.lookup r.state_code).getD ([], [])).2 },
    competitor_data := _create_competitor_data_for_population r.population }

/-- Embedding of _create_city_config_from_data as a fallible call, the
way its caller sees it.  The only exceptions the Python body can raise
are missing-key errors, which the record type precludes, so every
record produces a configuration; in particular there is no range check
and no InvalidRecordError anywhere in the repository. -/
def _create_city_config_from_data (r : RawCityRecord) :
    Except String CityConfiguration :=
  .ok (createCityConfig r)

/-- Claim-literal generator: the validating generator the spec
describes, which rejects population ≤ 0 and out-of-range coordinates
with InvalidRecordError.  Stated from the words of the spec for comparison
with the source embedding. -/
def createCityConfigClaim (r : RawCityRecord) : Except String CityConfiguration :=
  if r.population ≤ 0 ∨ r.latitude < -90 ∨ 90 < r.latitude ∨
      r.longitude < -180 ∨ 180 < r.longitude then
    .error "InvalidRecordError"
  else
    .ok (createCityConfig r)

/-- Record that the claim says must be rejected: population -5,
latitude 200, longitude 300. -/
def invalidRecord : RawCityRecord :=
  { city := "Badville", state_code := "ZZ", population := -5,
    latitude := 200, longitude := 300, county := none }

/-- C3, counterexample: on a record with population ≤ 0 and lat/lon far
outside the valid ranges, the source generator succeeds and returns a
configuration, while the validating generator the claim describes
fails; generation in the code never raises InvalidRecordError. -/
theorem create_city_config_no_validation :
    (_create_city_config_from_data invalidRecord).isOk = true ∧
    createCityConfigClaim invalidRecord = .error "InvalidRecordError" := by
  constructor
  · rfl
  · have hpop : invalidRecord.population ≤ 0 := by decide
    simp [createCityConfigClaim, hpop]

/-- C3, amended: the generator performs no range validation at all —
for every raw record with the required fields, including those with
population ≤ 0 or latitude/longitude out of range, generation succeeds
and returns a configuration whose city_id is the slug of the name and
state and whose display_name is the comma-joined name and state. -/
theorem create_city_config_total :
    ∀ r : RawCityRecord, ∃ c,
      _create_city_config_from_data r = .ok c ∧
      c.city_id = city_id r.city r.state_code ∧
      c.display_name = r.city ++ ", " ++ r.state_code :=
  fun r => ⟨createCityConfig r, rfl, rfl, rfl⟩

/-- Dictionary produced by asdict for CityBounds: same fields under the
same keys (dataclasses.asdict copies values, tuples staying tuples). -/
structure CityBoundsDict where
  min_lat : Rat
  max_lat : Rat
  min_lon : Rat
  max_lon : Rat
  center_lat : Rat
  center_lon : Rat
  grid_spacing : Rat
deriving DecidableEq

/-- Dictionary produced by asdict for CityDemographics. -/
structure CityDemographicsDict where
  typical_population_range : RangeVal
  typical_income_range : RangeVal
  typical_age_range : RangeVal
  population_density_factor : Rat
deriving DecidableEq

/-- Dictionary produced by asdict for CityMarketData. -/
structure CityMarketDataDict where
  state_code : String
  county_name : String
  city_name_variations : List String
  rental_api_city_name : String
  major_universities : List String
  major_employers : List String
deriving DecidableEq

/-- Dictionary produced by asdict for CityCompetitorData. -/
structure CityCompetitorDataDict where
  primary_competitor : String
  competitor_search_terms : List String
  market_saturation_factor : Rat
  fast_casual_preference_score : Rat
deriving DecidableEq

/-- Dictionary produced by CityConfiguration.to_dict (asdict, line 70):
top-level keys city_id and display_name plus the four nested
dictionaries. -/
structure CityConfigurationDict where
  city_id : String
  display_name : String
  bounds : CityBoundsDict
  demographics : CityDemographicsDict
  market_data : CityMarketDataDict
  competitor_data : CityCompetitorDataDict
deriving DecidableEq

/-- Embedding of CityConfiguration.to_dict (lines 68-70): asdict copies
every field, recursing into the nested dataclasses, keeping tuple
values as tuples. -/
def CityConfiguration.to_dict (c : CityConfiguration) : CityConfigurationDict :=
  { city_id := c.city_id,
    display_name := c.display_name,
    bounds :=
      { min_lat := c.bounds.min_lat, max_lat := c.bounds.max_lat,
        min_lon := c.bounds.min_lon, max_lon := c.bounds.max_lon,
        center_lat := c.bounds.center_lat, center_lon := c.bounds.center_lon,
        grid_spacing := c.bounds.grid_spacing },
    demographics :=
      { typical_population_range := c.demographics.typical_population_range,
        typical_income_range := c.demographics.typical_income_range,
        typical_age_range := c.demographics.typical_age_range,
        population_density_factor := c.demographics.population_density_factor },
    market_data :=
      { state_code := c.market_data.state_code,
        county_name := c.market_data.county_name,
        city_name_variations := c.market_data.city_name_variations,
        rental_api_city_name := c.market_data.rental_api_city_name,
        major_universities := c.market_data.major_universities,
        major_employers := c.market_data.major_employers },
    competitor_data :=
      { primary_competitor := c.competitor_data.primary_competitor,
        competitor_search_terms := c.competitor_data.competitor_search_terms,
        market_saturation_factor := c.competitor_data.market_saturation_factor,
        fast_casual_preference_score :=
          c.competitor_data.fast_casual_preference_score } }

/-- Embedding of CityConfiguration.from_dict (lines 72-82): rebuilds the
configuration by passing each nested dictionary to the matching
dataclass constructor. -/
def CityConfiguration.from_dict (d : CityConfigurationDict) : CityConfiguration :=
  { city_id := d.city_id,
    display_name := d.display_name,
    bounds :=
      { min_lat := d.bounds.min_lat, max_lat := d.bounds.max_lat,
        min_lon := d.bounds.min_lon, max_lon := d.bounds.max_lon,
        center_lat := d.bounds.center_lat, center_lon := d.bounds.center_lon,
        grid_spacing := d.bounds.grid_spacing },
    demographics :=
      { typical_population_range := d.demographics.typical_population_range,
        typical_income_range := d.demographics.typical_income_range,
        typical_age_range := d.demographics.typical_age_range,
        population_density_factor := d.demographics.population_density_factor },
    market_data :=
      { state_code := d.market_data.state_code,
        county_name := d.market_data.county_name,
        city_name_variations := d.market_data.city_name_variations,
        rental_api_city_name := d.market_data.rental_api_city_name,
        major_universities := d.market_data.major_universities,
        major_employers := d.market_data.major_employers },
    competitor_data :=
      { primary_competitor := d.competitor_data.primary_competitor,
        competitor_search_terms := d.competitor_data.competitor_search_terms,
        market_saturation_factor := d.competitor_data.market_saturation_factor,
        fast_casual_preference_score :=
          d.competitor_data.fast_casual_preference_score } }

/-- C10: the in-memory dictionary round trip reconstructs the
configuration exactly, every field of every nested object included. -/
theorem from_dict_to_dict_round_trip :
    ∀ c : CityConfiguration, CityConfiguration.from_dict c.to_dict = c :=
  fun _ => rfl

/-- YAML effect on one range value: the registered tuple representer
(city_config.py lines 162-171) dumps a tuple as a plain YAML sequence,
and yaml.safe_load reads a plain sequence back as a Python list; an
already-list value is unchanged.  The registered tuple constructor only
fires on a python/tuple tag, which the representer never emits. -/
def rangeToYaml : RangeVal → RangeVal
  | .tup a b => .lst [a, b]
  | .lst xs => .lst xs

/-- YAML round trip of a demographics dictionary. -/
def demographicsDictToYaml (d : CityDemographicsDict) : CityDemographicsDict :=
  { d with
    typical_population_range := rangeToYaml d.typical_population_range,
    typical_income_range := rangeToYaml d.typical_income_range,
    typical_age_range := rangeToYaml d.typical_age_range }

/-- YAML round trip of a full configuration dictionary: only the range
fields change representation. -/
def cityDictToYaml (c : CityConfigurationDict) : CityConfigurationDict :=
  { c with demographics := demographicsDictToYaml c.demographics }

/-- Persisted document: the two top-level keys written by save_configs
(lines 403-413). -/
structure ConfigDoc where
  current_city : Option String
  cities : List (String × CityConfigurationDict)
deriving DecidableEq

/-- Document content after being dumped to YAML and parsed back. -/
def docToYaml (d : ConfigDoc) : ConfigDoc :=
  { d with cities := d.cities.map (fun kv => (kv.1, cityDictToYaml kv.2)) }

/-- State of an EnhancedCityConfigManager: the configs mapping (as an
insertion-ordered association list, the iteration order of a Python
dict), the current-city pointer, and the content of the backing file. -/
structure Manager where
  configs : List (String × CityConfiguration)
  current_city : Option String
  file : Option ConfigDoc
deriving DecidableEq

/-- Document that save_configs builds from the manager before dumping. -/
def managerDoc (m : Manager) : ConfigDoc :=
  { current_city := m.current_city,
    cities := m.configs.map (fun kv => (kv.1, kv.2.to_dict)) }

/-- Embedding of save_configs (lines 403-413) with the write
succeeding: the file now holds the YAML-encoded document. -/
def save_configs (m : Manager) : Manager :=
  { m with file := some (docToYaml (managerDoc m)) }

/-- Manager loaded from a parsed document with a cities key, the branch
of load_configs at lines 179-184. -/
def managerOfDoc (d : ConfigDoc) : Manager :=
  { configs := d.cities.map (fun kv => (kv.1, CityConfiguration.from_dict kv.2)),
    current_city := d.current_city,
    file := some d }

/-- Persistence round trip: save_configs writes the document and a
fresh manager construction reads it back through the valid-file branch
of load_configs. -/
def saveLoad (m : Manager) : Manager :=
  managerOfDoc (docToYaml (managerDoc m))

/-- Range normal form after one persistence round trip. -/
def normalizeDemographics (d : CityDemographics) : CityDemographics :=
  { d with
    typical_population_range := rangeToYaml d.typical_population_range,
    typical_income_range := rangeToYaml d.typical_income_range,
    typical_age_range := rangeToYaml d.typical_age_range }

/-- Configuration with its demographic ranges in round-trip normal
form. -/
def normalizeConfig (c : CityConfiguration) : CityConfiguration :=
  { c with demographics := normalizeDemographics c.demographics }

theorem rangeToYaml_idem (x : RangeVal) : rangeToYaml (rangeToYaml x) = rangeToYaml x := by
  cases x <;> rfl

/-- Sample record for concrete store states; population 300,000 puts it
in the third tier. -/
def sampleRecord : RawCityRecord :=
  { city := "St. Louis", state_code := "MO", population := 300000,
    latitude := 38.627, longitude := -90.199, county := none }

/-- Configuration generated from the sample record. -/
def sampleConfig : CityConfiguration := createCityConfig sampleRecord

/-- Concrete one-city manager state. -/
def sampleManager : Manager :=
  { configs := [(sampleConfig.city_id, sampleConfig)],
    current_city := none, file := none }

/-- C9, counterexample: one save/load round trip is not the identity.
The generator stores the demographic ranges as tuples, and the round
trip brings them back as lists, so the reloaded collection differs from
the saved one. -/
theorem save_load_not_identity : saveLoad sampleManager ≠ sampleManager := by
  intro h
  have h2 := congrArg
    (fun m : Manager =>
      (m.configs.head?).map (fun kv => kv.2.demographics.typical_population_range)) h
  have h3 : (some (RangeVal.lst [3000, 15000]) : Option RangeVal) =
      some (RangeVal.tup 3000 15000) := h2
  injection h3 with h4
  exact RangeVal.noConfusion h4

/-- C9, amended: the save/load round trip preserves the whole
collection and the current-city pointer except that every tuple-valued
range field comes back as the fixed 2-element list of the same
endpoints (never collapsed to a scalar), and the round trip is
idempotent: applying save-then-load twice equals applying it once. -/
theorem save_load_characterization :
    (∀ m : Manager, saveLoad m =
      { configs := m.configs.map (fun kv => (kv.1, normalizeConfig kv.2)),
        current_city := m.current_city,
        file := some (docToYaml (managerDoc m)) }) ∧
    (∀ m : Manager, saveLoad (saveLoad m) = saveLoad m) ∧
    (∀ a b : Rat, rangeToYaml (.tup a b) = .lst [a, b] ∧
      [a, b].length = 2) := by
  refine ⟨?_, ?_, fun a b => ⟨rfl, rfl⟩⟩
  · intro m
    simp only [saveLoad, managerOfDoc, docToYaml, managerDoc, List.map_map]
    congr 1
  · intro m
    show managerOfDoc (docToYaml (managerDoc (saveLoad m))) = saveLoad m
    have hdoc : docToYaml (managerDoc (saveLoad m)) = docToYaml (managerDoc m) := by
      simp only [saveLoad, managerOfDoc, managerDoc, docToYaml, List.map_map]
      refine congrArg (fun l => ConfigDoc.mk m.current_city l) ?_
      refine List.map_congr_left (fun kv _ => ?_)
      show (kv.1, cityDictToYaml (cityDictToYaml kv.2.to_dict)) =
        (kv.1, cityDictToYaml kv.2.to_dict)
      have hidem : cityDictToYaml (cityDictToYaml kv.2.to_dict) = cityDictToYaml kv.2.to_dict := by
        simp only [cityDictToYaml, demographicsDictToYaml, rangeToYaml_idem]
      rw [hidem]
    rw [hdoc]
    rfl

/-- Dict membership test of set_current_city (line 435), the Python
expression city_id in self.configs. -/
def configsContain (m : Manager) (cid : String) : Bool :=
  (m.configs.lookup cid).isSome

/-- Embedding of set_current_city (lines 433-439), with the save write
succeeding: when the id is a key, set the pointer, persist, and return
True; otherwise change nothing and return False. -/
def set_current_city (m : Manager) (cid : String) : Manager × Bool :=
  if configsContain m cid then
    (save_configs { m with current_city := some cid }, true)
  else
    (m, false)

/-- C7: set_current_city succeeds exactly when the city id is a key of
the configs mapping; on success it sets and persists the pointer while
keeping the configs unchanged, and on failure it returns False leaving
the whole manager state untouched. -/
theorem set_current_city_spec :
    ∀ (m : Manager) (cid : String),
      ((set_current_city m cid).2 = true ↔ configsContain m cid = true) ∧
      (configsContain m cid = true →
        (set_current_city m cid).1.current_city = some cid ∧
        (set_current_city m cid).1.configs = m.configs ∧
        (set_current_city m cid).1.file =
          some (docToYaml (managerDoc { m with current_city := some cid }))) ∧
      (configsContain m cid = false → set_current_city m cid = (m, false)) := by
  intro m cid
  by_cases h : configsContain m cid = true
  · refine ⟨⟨fun _ => h, fun _ => ?_⟩, fun _ => ⟨?_, ?_, ?_⟩, fun hf => ?_⟩ <;>
      simp [set_current_city, save_configs, h] at *
  · have hf : configsContain m cid = false := Bool.eq_false_iff.mpr h
    refine ⟨⟨fun ht => ?_, fun hc => absurd hc h⟩, fun hc => absurd hc h, fun _ => ?_⟩
    · simp [set_current_city, hf] at ht
    · simp [set_current_city, hf]

/-- C7, witness: on the sample one-city store, selecting the stored id
st_louis_mo succeeds and sets the pointer, while selecting an unknown
id fails and leaves the manager untouched. -/
theorem set_current_city_witness :
    (set_current_city sampleManager "st_louis_mo").2 = true ∧
    (set_current_city sampleManager "st_louis_mo").1.current_city = some "st_louis_mo" ∧
    set_current_city sampleManager "nowhere_zz" = (sampleManager, false) := by
  have hin : configsContain sampleManager "st_louis_mo" = true := by decide
  have hout : configsContain sampleManager "nowhere_zz" = false := by decide
  have h1 := set_current_city_spec sampleManager "st_louis_mo"
  have h2 := set_current_city_spec sampleManager "nowhere_zz"
  exact ⟨h1.1.mpr hin, (h1.2.1 hin).1, h2.2.2 hout⟩

/-- Dict-style insertion used by _generate_usa_city_configs (line 228):
assignment into self.configs replaces the value of an existing key in
place, otherwise appends in insertion order. -/
def upsertConfig (l : List (String × CityConfiguration)) (c : CityConfiguration) :
    List (String × CityConfiguration) :=
  if (l.lookup c.city_id).isSome then
    l.map (fun kv => if kv.1 == c.city_id then (kv.1, c) else kv)
  else
    l ++ [(c.city_id, c)]

/-- Embedding of _generate_usa_city_configs (lines 192-244) before its
final save: every supplied record is turned into a configuration (the
per-row try/except never fires for well-formed records), and the
current city defaults to the first stored key when any exists. -/
def generateManager (records : List RawCityRecord) : Manager :=
  let cfgs := records.foldl (fun acc r => upsertConfig acc (createCityConfig r)) []
  { configs := cfgs,
    current_city := (cfgs.head?).map (fun kv => kv.1),
    file := none }

/-- Observable states of the backing YAML file when the manager is
constructed: missing, unreadable (open/read raises), corrupt (parse
raises), parsed to an empty/None document, parsed without a cities key,
or a valid document. -/
inductive FileState where
  | absent
  | readError
  | parseError
  | emptyDoc
  | noCityKey
  | valid (d : ConfigDoc)
deriving DecidableEq

/-- Embedding of load_configs (lines 173-190) as invoked by the
constructor, together with the unguarded save_configs call that ends
_generate_usa_city_configs (line 244).  A valid file is loaded and
returned with no write.  Every other file state falls through to
regeneration — the try/except at lines 176-186 swallows read and parse
errors, and an empty document or one without a cities key skips the
return — after which save_configs runs outside any try block, so a
failing write raises out of the constructor. -/
def load_configs (fs : FileState) (writeOk : Bool) (records : List RawCityRecord) :
    Except String Manager :=
  match fs with
  | .valid d => .ok (managerOfDoc d)
  | _ =>
    if writeOk then .ok (save_configs (generateManager records))
    else .error "PersistenceFailure"

/-- C8, counterexample: with a corrupt backing file and a failing write,
store construction does not complete — the write error from the
unguarded save_configs call propagates out of the constructor, contrary
to the claim that persistence errors are recovered non-fatally. -/
theorem load_configs_write_error_propagates :
    (load_configs .parseError false [sampleRecord]).isOk = false :=
  rfl

/-- C8, amended: read-side failures never propagate — absent,
unreadable, corrupt, and empty (or cities-less) files are all treated
exactly like an absent file and configurations are regenerated in
memory — and when the subsequent write succeeds the constructor always
completes; a valid file loads without any write; but a write error
while persisting the regenerated configurations does propagate (the
save path is not guarded). -/
theorem load_configs_read_errors_recovered :
    (∀ (fs : FileState) (records : List RawCityRecord),
      (load_configs fs true records).isOk = true) ∧
    (∀ (d : ConfigDoc) (w : Bool) (records : List RawCityRecord),
      load_configs (.valid d) w records = .ok (managerOfDoc d)) ∧
    (∀ (w : Bool) (records : List RawCityRecord),
      load_configs .readError w records = load_configs .absent w records ∧
      load_configs .parseError w records = load_configs .absent w records ∧
      load_configs .emptyDoc w records = load_configs .absent w records ∧
      load_configs .noCityKey w records = load_configs .absent w records) := by
  refine ⟨?_, fun d w records => rfl, fun w records => ⟨rfl, rfl, rfl, rfl⟩⟩
  intro fs records
  cases fs <;> rfl

/-- ASCII upper-casing of one character (Python str.upper on ASCII). -/
def pyUpperChar (c : Char) : Char :=
  if 'a' ≤ c ∧ c ≤ 'z' then Char.ofNat (c.toNat - 32) else c

/-- One step of Python str.title: a cased character following a
non-alphabetic one is upper-cased, any other is lower-cased. -/
def pyTitleStep (acc : List Char × Bool) (c : Char) : List Char × Bool :=
  ((if acc.2 then pyLowerChar c else pyUpperChar c) :: acc.1, c.isAlpha)

/-- Embedding of Python str.title for the ASCII strings involved. -/
def pyTitle (s : String) : String :=
  String.mk ((s.toList.foldl pyTitleStep ([], false)).1.reverse)

/-- Shape of a loaded dataset as far as the orchestrator inspects it:
the number of rows of df_filtered, the synthetic metadata flag, and the
identity carried by the embedded config object.  The numeric content of
the rows is opaque to every branch the orchestrator takes. -/
structure CityData where
  n_rows : Nat
  synthetic : Bool
  config_city_id : String
  config_display_name : String
deriving DecidableEq

/-- Embedding of create_synthetic_city_data
(dynamic_dashboard_fixed.py lines 403-452): a 100-row table, metrics
carrying synthetic=True, and a MockConfig holding the requested city_id
and display name (title-cased from the id when the name is empty). -/
def create_synthetic_city_data (cid display_name : String) : CityData :=
  { n_rows := 100,
    synthetic := true,
    config_city_id := cid,
    config_display_name :=
      if display_name = "" then pyTitle (String.mk (cid.toList.map (replChar '_' ' ')))
      else display_name }

/-- Dictionary returned by the external collection routine, as far as
the validation in the orchestrator looks at it: df_rows is none when the
returned dict lacks the df_filtered key. -/
structure LoaderData where
  df_rows : Option Nat
  synthetic : Bool
  config_city_id : String
  config_display_name : String
deriving DecidableEq

/-- Outcome of awaiting load_city_data_on_demand: the call raises (or
times out), or it returns either nothing or a dictionary. -/
inductive CollectOutcome where
  | raises (msg : String)
  | returns (data : Option LoaderData)
deriving DecidableEq

/-- Progress record stored in the shared status slot. -/
inductive ProgressVal where
  | status (percent : Nat) (step : String)
  | err (msg : String)
deriving DecidableEq

/-- Embedding of the shared app_state dictionary
(dynamic_dashboard_fixed.py lines 47-53). -/
structure AppState where
  current_city_data : Option CityData
  loading_progress : Option ProgressVal
  last_loaded_city : Option String
  loading_in_progress : Bool
deriving DecidableEq

/-- Initial app_state: every slot empty, no load in flight. -/
def initialAppState : AppState :=
  { current_city_data := none, loading_progress := none,
    last_loaded_city := none, loading_in_progress := false }

/-- Try-block of load_city_data_background_safe (lines 351-379): raise
when the collection raised, when it returned nothing, or when the
df_filtered key is missing; substitute synthetic data inline when the
returned table is empty; otherwise keep the returned data. -/
def loadBody (cid display_name : String) (o : CollectOutcome) :
    Except String CityData :=
  match o with
  | .raises msg => .error msg
  | .returns none => .error "Invalid city data returned"
  | .returns (some ld) =>
    match ld.df_rows with
    | none => .error "Invalid city data returned"
    | some 0 => .ok (create_synthetic_city_data cid display_name)
    | some (n + 1) =>
      .ok { n_rows := n + 1, synthetic := ld.synthetic,
            config_city_id := ld.config_city_id,
            config_display_name := ld.config_display_name }

/-- Embedding of load_city_data_background_safe (lines 328-401).  The
function is total: the except arm at lines 381-395 catches whatever the
try-block raised and stores the synthetic fallback, so no exception
crosses the orchestrator boundary. -/
def load_city_data_background_safe (cid display_name : String)
    (o : CollectOutcome) (st : AppState) : AppState :=
  match loadBody cid display_name o with
  | .ok cd =>
    { st with current_city_data := some cd,
              loading_in_progress := false,
              loading_progress := none }
  | .error e =>
    { st with current_city_data := some (create_synthetic_city_data cid display_name),
              loading_in_progress := false,
              loading_progress := some (.err ("Error loading city data: " ++ e)) }

/-- Failure of one collection attempt in the sense of the claim: the
routine raised or timed out, returned nothing usable, or returned an
empty result set. -/
def collectFailed (o : CollectOutcome) : Bool :=
  match o with
  | .raises _ => true
  | .returns none => true
  | .returns (some ld) => ld.df_rows == none || ld.df_rows == some 0

/-- C1: every load attempt leaves the current-city-data slot holding
some dataset and clears the in-progress flag, and whenever the
collection raised, returned nothing usable, or returned an empty table,
the stored dataset is exactly the synthetic fallback for the requested
city_id and display name, whose metadata carries synthetic=True.  No
exception escapes: the orchestrator embedding is a total function into
AppState. -/
theorem load_attempt_always_fills_slot :
    ∀ (cid display_name : String) (o : CollectOutcome) (st : AppState),
      ((load_city_data_background_safe cid display_name o st).current_city_data).isSome
        = true ∧
      (load_city_data_background_safe cid display_name o st).loading_in_progress
        = false ∧
      (collectFailed o = true →
        (load_city_data_background_safe cid display_name o st).current_city_data =
          some (create_synthetic_city_data cid display_name) ∧
        (create_synthetic_city_data cid display_name).synthetic = true ∧
        (create_synthetic_city_data cid display_name).config_city_id = cid) := by
  intro cid dn o st
  rcases o with msg | data
  · exact ⟨rfl, rfl, fun _ => ⟨rfl, rfl, rfl⟩⟩
  · rcases data with _ | ld
    · exact ⟨rfl, rfl, fun _ => ⟨rfl, rfl, rfl⟩⟩
    · rcases ld with ⟨df, syn, lcid, ldn⟩
      rcases df with _ | n
      · exact ⟨rfl, rfl, fun _ => ⟨rfl, rfl, rfl⟩⟩
      · rcases n with _ | k
        · exact ⟨rfl, rfl, fun _ => ⟨rfl, rfl, rfl⟩⟩
        · refine ⟨rfl, rfl, fun hfail => ?_⟩
          simp [collectFailed] at hfail

/-- C1, witness: a raising collection for grand_forks_nd starting from
the initial state ends with the synthetic dataset stored. -/
theorem load_attempt_fills_slot_witness :
    ((load_city_data_background_safe "grand_forks_nd" "Grand Forks, ND"
        (.raises "timeout") initialAppState).current_city_data).isSome = true ∧
    (load_city_data_background_safe "grand_forks_nd" "Grand Forks, ND"
        (.raises "timeout") initialAppState).current_city_data =
      some (create_synthetic_city_data "grand_forks_nd" "Grand Forks, ND") := by
  have h := load_attempt_always_fills_slot "grand_forks_nd" "Grand Forks, ND"
    (.raises "timeout") initialAppState
  exact ⟨h.1, (h.2.2 rfl).1⟩

/-- Embedding of the load-gate of trigger_city_loading
(dynamic_dashboard_fixed.py lines 272-299) for a concrete selected city
with the data loader available: a background worker is started exactly
when the requested city differs from the last loaded one, or a force
refresh was clicked, or the current-city-data slot is empty; starting
sets loading_in_progress and last_loaded_city.  The loading_in_progress
flag is never consulted by this gate. -/
def trigger_city_loading (st : AppState) (cid : String) (force_refresh : Bool) :
    AppState × Bool :=
  if (st.last_loaded_city != some cid) || force_refresh ||
      !(st.current_city_data).isSome then
    ({ st with loading_in_progress := true, last_loaded_city := some cid }, true)
  else
    (st, false)

/-- State in the middle of a first-ever load of chicago_il: the load is
in flight, so the data slot is still empty. -/
def loadingStateNoData : AppState :=
  { current_city_data := none,
    loading_progress := some (.status 50 "Collecting census data"),
    last_loaded_city := some "chicago_il",
    loading_in_progress := true }

/-- C2, counterexample: with a load for chicago_il in progress
(loading_in_progress set, last loaded city equal to the request) and
the data slot still empty, a second request for chicago_il without
force_refresh starts a second background worker — the gate tests the
data slot, never the in-progress flag. -/
theorem trigger_starts_second_worker_while_loading :
    loadingStateNoData.loading_in_progress = true ∧
    loadingStateNoData.last_loaded_city = some "chicago_il" ∧
    (trigger_city_loading loadingStateNoData "chicago_il" false).2 = true :=
  ⟨rfl, rfl, rfl⟩

/-- C2, amended: a second request for the same city without
force_refresh is ignored (no second worker, state unchanged) provided
the current-city-data slot already holds a dataset; while the slot is
still empty — as during the first load of a city — the code does start
another worker. -/
theorem trigger_ignores_repeat_request_with_data :
    ∀ (st : AppState) (cid : String),
      st.loading_in_progress = true →
      st.last_loaded_city = some cid →
      (st.current_city_data).isSome = true →
      trigger_city_loading st cid false = (st, false) := by
  intro st cid h1 h2 h3
  simp [trigger_city_loading, h2, h3]

/-- State in which chicago_il has already been loaded (here via the
synthetic fallback) while a refresh for it is still marked in flight. -/
def loadedState : AppState :=
  { current_city_data := some (create_synthetic_city_data "chicago_il" "Chicago, IL"),
    loading_progress := none,
    last_loaded_city := some "chicago_il",
    loading_in_progress := true }

/-- C2, witness: with chicago_il data present, a repeated request for
chicago_il without force_refresh is ignored. -/
theorem trigger_ignores_repeat_request_witness :
    trigger_city_loading loadedState "chicago_il" false = (loadedState, false) :=
  trigger_ignores_repeat_request_with_data loadedState "chicago_il" rfl rfl rfl

end BizWiz
